import Mathlib

/-!
Shallow embedding of the Maven Rewards analytics engine
(utils/data_processor.py, utils/model_handler.py) and proofs of the
specification claims about it.

Conventions of the embedding:
* a pandas DataFrame is a list of rows (structures holding the columns the
  modelled functions touch; columns never read by that code are omitted);
* the hour-valued raw timestamps stay integers (pd.to_datetime with unit
  hours is an order-isomorphic relabelling of the integer hour axis);
* float arithmetic is modelled exactly over the rationals;
* a Python raise is modelled as an Except error value.
-/

/-! ## Offer events (utils/data_processor.py, preprocess_offer_events) -/

/-- Row of the offer-events table.  The offer_success column does not exist
on the raw input; pandas adds it in preprocess_offer_events, so here it is a
field that the raw table carries with default value false and that
computeSuccess overwrites. -/
structure OfferEvent where
  customer_id : String
  offer_id : String
  event : String
  time : ℤ
  offer_type : String
  channels : List String
  duration : ℤ
  age : ℚ
  offer_success : Bool := false
deriving Repr, DecidableEq, Inhabited

/-- Timestamp of the first row (in table order) carrying the given offer_id:
the pandas expression groupby offer_id, column time, transform first. -/
def firstTimeIn (df : List OfferEvent) (oid : String) : ℤ :=
  match df.find? (fun r => r.offer_id == oid) with
  | some r => r.time
  | none => 0

/-- Row-level success flag of preprocess_offer_events line 30:
event equals offer completed AND the row's own timestamp is within
duration days (24 times duration hours) of the group's first timestamp. -/
def successFlag (df : List OfferEvent) (r : OfferEvent) : Bool :=
  (r.event == "offer completed") &&
    decide (r.time - firstTimeIn df r.offer_id ≤ 24 * r.duration)

/-- One row of the table after the offer_success column is assigned. -/
def enrichRow (df : List OfferEvent) (r : OfferEvent) : OfferEvent :=
  { r with offer_success := successFlag df r }

/-- The assignment df[offer_success] = ... applied to every row. -/
def computeSuccess (df : List OfferEvent) : List OfferEvent :=
  df.map (enrichRow df)

/-- Linear-interpolation quantile of a sorted list, the pandas default
interpolation: position (n-1)q, value interpolated between the two
neighbouring order statistics. -/
def quantileSorted (l : List ℚ) (q : ℚ) : ℚ :=
  let pos : ℚ := q * ((l.length : ℚ) - 1)
  let i : ℕ := (⌊pos⌋).toNat
  let x := l.getD i 0
  let y := l.getD (i + 1) x
  x + (pos - (i : ℚ)) * (y - x)

/-- Age column of the table, sorted ascending. -/
def sortedAges (df : List OfferEvent) : List ℚ :=
  (df.map (fun r => r.age)).insertionSort (fun a b => a ≤ b)

/-- Series.quantile on the age column. -/
def ageQuantile (df : List OfferEvent) (q : ℚ) : ℚ :=
  quantileSorted (sortedAges df) q

/-- Lower Tukey fence Q1 - 1.5 IQR of the age column. -/
def ageLowerFence (df : List OfferEvent) : ℚ :=
  ageQuantile df (1/4) - 3/2 * (ageQuantile df (3/4) - ageQuantile df (1/4))

/-- Upper Tukey fence Q3 + 1.5 IQR of the age column. -/
def ageUpperFence (df : List OfferEvent) : ℚ :=
  ageQuantile df (3/4) + 3/2 * (ageQuantile df (3/4) - ageQuantile df (1/4))

/-- preprocess_offer_events: assign the offer_success column, then keep the
rows whose age lies inside the Tukey fences of the age column. -/
def preprocess_offer_events (df : List OfferEvent) : List OfferEvent :=
  let df1 := computeSuccess df
  let lb := ageLowerFence df1
  let ub := ageUpperFence df1
  df1.filter (fun r => decide (lb ≤ r.age) && decide (r.age ≤ ub))

/-! Concrete offer-event table used on claim C1: one offer group with
duration 7 days, received at hour 0 (day 0) and completed at hour 120
(day 5), both rows with age 30. -/

def c1row1 : OfferEvent :=
  { customer_id := "cust1", offer_id := "off1", event := "offer received",
    time := 0, offer_type := "bogo", channels := ["email"],
    duration := 7, age := 30 }

def c1row2 : OfferEvent :=
  { c1row1 with event := "offer completed", time := 120 }

def c1table : List OfferEvent := [c1row1, c1row2]

/-- Ages are untouched by the offer_success assignment. -/
theorem computeSuccess_map_age (df : List OfferEvent) :
    (computeSuccess df).map (fun r => r.age) = df.map (fun r => r.age) := by
  induction df with
  | nil => rfl
  | cons a l ih =>
      simp [computeSuccess, enrichRow] at ih ⊢

theorem sortedAges_computeSuccess (df : List OfferEvent) :
    sortedAges (computeSuccess df) = sortedAges df := by
  simp [sortedAges, computeSuccess_map_age]

theorem computeSuccess_length (df : List OfferEvent) :
    (computeSuccess df).length = df.length := by
  simp [computeSuccess]

/-- C1 counterexample: the table c1table is a group whose completed event
falls within the 7-day window (day 5), so under the claim every row of the
group would carry offer_success = true; the code leaves the received row at
false, because the flag is computed per row, not broadcast. -/
theorem c1_sortedAges : sortedAges (computeSuccess c1table) = [30, 30] := by
  simp [sortedAges, computeSuccess, enrichRow, c1table, c1row1, c1row2,
    List.insertionSort, List.orderedInsert]

theorem c1_q1 : ageQuantile (computeSuccess c1table) (1/4) = 30 := by
  rw [ageQuantile, c1_sortedAges]
  simp [quantileSorted]
  norm_num

theorem c1_q3 : ageQuantile (computeSuccess c1table) (3/4) = 30 := by
  rw [ageQuantile, c1_sortedAges]
  simp [quantileSorted]
  norm_num

theorem c1_lb : ageLowerFence (computeSuccess c1table) = 30 := by
  rw [ageLowerFence, c1_q1, c1_q3]
  norm_num

theorem c1_ub : ageUpperFence (computeSuccess c1table) = 30 := by
  rw [ageUpperFence, c1_q1, c1_q3]
  norm_num

theorem C1_counterexample :
    (preprocess_offer_events c1table).map (fun r => (r.event, r.offer_success)) =
      [("offer received", false), ("offer completed", true)] := by
  simp only [preprocess_offer_events]
  rw [c1_lb, c1_ub]
  decide

/-- C1 (amended): offer_success is computed row by row, not broadcast: a row
of the output carries offer_success = true iff that row's own event is
offer completed and that row's own timestamp is at most duration days after
the timestamp of the first row (in table order) of its offer_id group.  In
particular, with duration 7, received at day 0 and completed at day 10 every
row of the group is false, while completed at day 5 makes only the completed
row true and leaves the received row false. -/
theorem C1_amended (df : List OfferEvent) (i : ℕ) (h : i < df.length) :
    ((computeSuccess df).getD i default).offer_success = true ↔
      ((df.getD i default).event = "offer completed" ∧
        (df.getD i default).time - firstTimeIn df (df.getD i default).offer_id ≤
          24 * (df.getD i default).duration) := by
  have h2 : i < (computeSuccess df).length := by
    simpa [computeSuccess_length] using h
  rw [List.getD_eq_getElem _ _ h2, List.getD_eq_getElem _ _ h]
  simp [computeSuccess, enrichRow, successFlag]

/-- Witness for C1_amended at the completed-at-day-5 row of c1table. -/
theorem C1_amended_witness :
    (1 < c1table.length) ∧
      (((computeSuccess c1table).getD 1 default).offer_success = true ↔
        ((c1table.getD 1 default).event = "offer completed" ∧
          (c1table.getD 1 default).time -
              firstTimeIn c1table (c1table.getD 1 default).offer_id ≤
            24 * (c1table.getD 1 default).duration)) :=
  ⟨by decide, C1_amended c1table 1 (by decide)⟩

/-- C10: preprocess_offer_events keeps exactly the rows whose age lies
between the Tukey fences Q1 - 1.5 IQR and Q3 + 1.5 IQR computed from the
input's age column, each row appearing enriched with its offer_success flag;
out-of-fence rows are dropped with no error and no report (the function is
total and returns a plain table). -/
theorem C10_age_fence (df : List OfferEvent) (r : OfferEvent) :
    r ∈ preprocess_offer_events df ↔
      ∃ r0 ∈ df, r = enrichRow df r0 ∧
        ageLowerFence df ≤ r0.age ∧ r0.age ≤ ageUpperFence df := by
  have hfence1 : ageLowerFence (computeSuccess df) = ageLowerFence df := by
    simp [ageLowerFence, ageQuantile, sortedAges_computeSuccess]
  have hfence2 : ageUpperFence (computeSuccess df) = ageUpperFence df := by
    simp [ageUpperFence, ageQuantile, sortedAges_computeSuccess]
  simp only [preprocess_offer_events, hfence1, hfence2, List.mem_filter,
    Bool.and_eq_true, decide_eq_true_iff]
  rw [computeSuccess]
  simp only [List.mem_map]
  constructor
  · rintro ⟨⟨r0, hr0, rfl⟩, hlb, hub⟩
    refine ⟨r0, hr0, rfl, ?_, ?_⟩
    · simpa [enrichRow] using hlb
    · simpa [enrichRow] using hub
  · rintro ⟨r0, hr0, rfl, hlb, hub⟩
    refine ⟨⟨r0, hr0, rfl⟩, ?_, ?_⟩
    · simpa [enrichRow] using hlb
    · simpa [enrichRow] using hub

/-! ## Transactions and RFM features
(utils/model_handler.py, apply_customer_segmentation) -/

/-- Row of the transaction-events table.  Every raw transaction row carries
the literal event value transaction, so the count aggregation over the event
column equals the row count of the group. -/
structure TransactionEvent where
  customer_id : String
  event : String := "transaction"
  time : ℤ
  amount : ℚ
deriving Repr, DecidableEq, Inhabited

/-- Maximum of a pandas integer series (well defined on nonempty input;
the 0 seed is irrelevant there because the head also takes part). -/
def seriesMax (l : List ℤ) : ℤ := l.foldl max (l.headD 0)

theorem le_foldl_max (l : List ℤ) : ∀ init : ℤ, init ≤ l.foldl max init := by
  induction l with
  | nil => intro init; exact le_refl _
  | cons a t ih =>
      intro init
      exact le_trans (le_max_left init a) (ih (max init a))

theorem mem_le_foldl_max (l : List ℤ) :
    ∀ (init x : ℤ), x ∈ l → x ≤ l.foldl max init := by
  induction l with
  | nil => intro init x hx; simp at hx
  | cons a t ih =>
      intro init x hx
      rcases List.mem_cons.mp hx with h | h
      · subst h
        exact le_trans (le_max_right init x) (le_foldl_max t (max init x))
      · exact ih (max init a) x h

theorem foldl_max_le (l : List ℤ) :
    ∀ init b : ℤ, init ≤ b → (∀ x ∈ l, x ≤ b) → l.foldl max init ≤ b := by
  induction l with
  | nil => intro init b h1 _; simpa using h1
  | cons a t ih =>
      intro init b h1 h2
      exact ih (max init a) b (max_le h1 (h2 a (by simp)))
        (fun x hx => h2 x (by simp [hx]))

theorem mem_le_seriesMax (l : List ℤ) (x : ℤ) (hx : x ∈ l) : x ≤ seriesMax l :=
  mem_le_foldl_max l _ x hx

theorem seriesMax_le (l : List ℤ) (b : ℤ) (hne : l ≠ [])
    (h : ∀ x ∈ l, x ≤ b) : seriesMax l ≤ b := by
  cases l with
  | nil => exact absurd rfl hne
  | cons a t =>
      have hsm : seriesMax (a :: t) = t.foldl max a := by
        simp [seriesMax, max_self]
      rw [hsm]
      exact foldl_max_le t a b (h a (by simp)) (fun x hx => h x (by simp [hx]))

/-- One RFM row per customer; cluster is filled in later by the predict
step, mirroring the rfm[cluster] column assignment. -/
structure RFMRecord where
  customer_id : String
  recency : ℤ
  frequency : ℕ
  monetary : ℚ
  cluster : ℕ := 0
deriving Repr, DecidableEq, Inhabited

/-- Rows of one customer_id group of the groupby. -/
def custRows (df : List TransactionEvent) (cid : String) : List TransactionEvent :=
  df.filter (fun t => t.customer_id == cid)

/-- Group keys of groupby customer_id (each customer once; pandas sorts the
keys, which no proved property depends on, so first-occurrence order is
kept here). -/
def customersOf (df : List TransactionEvent) : List String :=
  (df.map (fun t => t.customer_id)).dedup

/-- transaction_df time max over the whole table. -/
def maxTimeAll (df : List TransactionEvent) : ℤ :=
  seriesMax (df.map (fun t => t.time))

/-- x.max of the time column inside one customer group. -/
def maxTimeCust (df : List TransactionEvent) (cid : String) : ℤ :=
  seriesMax ((custRows df cid).map (fun t => t.time))

/-- One aggregated row of the rfm frame: recency is the whole-table time max
minus the group time max in whole days (the days field of a pandas Timedelta
floors, hence Int.fdiv by 24 hours), frequency counts the group rows (the
count of the never-null event column), monetary is the amount sum clamped to
zero from below by the apply of max(x, 0). -/
def rfmRow (df : List TransactionEvent) (cid : String) : RFMRecord :=
  { customer_id := cid
    recency := Int.fdiv (maxTimeAll df - maxTimeCust df cid) 24
    frequency := (custRows df cid).length
    monetary := max (((custRows df cid).map (fun t => t.amount)).sum) 0 }

/-- The full RFM frame of the groupby-agg in apply_customer_segmentation. -/
def buildRFM (df : List TransactionEvent) : List RFMRecord :=
  (customersOf df).map (rfmRow df)

theorem custRows_ne_nil (df : List TransactionEvent) (cid : String)
    (h : cid ∈ customersOf df) : custRows df cid ≠ [] := by
  rw [customersOf, List.mem_dedup, List.mem_map] at h
  obtain ⟨t, ht, rfl⟩ := h
  have : t ∈ custRows df t.customer_id := by
    rw [custRows, List.mem_filter]
    exact ⟨ht, by simp⟩
  intro hnil
  rw [hnil] at this
  simp at this

theorem maxTimeCust_le_maxTimeAll (df : List TransactionEvent) (cid : String)
    (h : cid ∈ customersOf df) : maxTimeCust df cid ≤ maxTimeAll df := by
  apply seriesMax_le
  · intro hnil
    exact custRows_ne_nil df cid h (by simpa using hnil)
  · intro x hx
    rw [List.mem_map] at hx
    obtain ⟨t, ht, rfl⟩ := hx
    exact mem_le_seriesMax _ _
      (List.mem_map_of_mem _ (List.mem_of_mem_filter ht))

/-- C2: every row of the RFM frame of a nonempty transaction table has
recency = (table-wide time max minus the customer's time max) in whole days,
frequency = the customer's row count, monetary = the customer's amount sum
floored at zero, and consequently recency, frequency and monetary are all
nonnegative. -/
theorem C2_rfm_invariants (df : List TransactionEvent) (_hdf : df ≠ [])
    (r : RFMRecord) (hr : r ∈ buildRFM df) :
    r.recency = Int.fdiv (maxTimeAll df - maxTimeCust df r.customer_id) 24 ∧
    0 ≤ r.recency ∧
    r.frequency = (custRows df r.customer_id).length ∧
    r.monetary = max (((custRows df r.customer_id).map (fun t => t.amount)).sum) 0 ∧
    0 ≤ r.monetary := by
  rw [buildRFM, List.mem_map] at hr
  obtain ⟨cid, hcid, rfl⟩ := hr
  refine ⟨rfl, ?_, rfl, rfl, le_max_right _ _⟩
  exact Int.fdiv_nonneg
    (sub_nonneg.mpr (maxTimeCust_le_maxTimeAll df cid hcid)) (by norm_num)

/-- Concrete two-customer transaction table for the C2 witness. -/
def c2table : List TransactionEvent :=
  [{ customer_id := "custA", time := 0, amount := 5 },
   { customer_id := "custB", time := 48, amount := 7 }]

/-- Witness for C2_rfm_invariants on the custA row of c2table. -/
theorem C2_witness :
    c2table ≠ [] ∧
      ((rfmRow c2table "custA").recency =
          Int.fdiv (maxTimeAll c2table - maxTimeCust c2table "custA") 24 ∧
        0 ≤ (rfmRow c2table "custA").recency ∧
        (rfmRow c2table "custA").frequency = (custRows c2table "custA").length ∧
        (rfmRow c2table "custA").monetary =
          max (((custRows c2table "custA").map (fun t => t.amount)).sum) 0 ∧
        0 ≤ (rfmRow c2table "custA").monetary) :=
  ⟨by decide,
    C2_rfm_invariants c2table (by decide) (rfmRow c2table "custA")
      (List.mem_map_of_mem _ (by decide))⟩

/-! ## Segmentation model artifact and predict
(utils/model_handler.py, load_model and apply_customer_segmentation) -/

/-- Stored StandardScaler artifact: per-feature mean and scale. -/
structure ScalerParams where
  mean : List ℚ
  scale : List ℚ
deriving Repr, DecidableEq, Inhabited

/-- Stored KMeans artifact: the centroid matrix in standardized space. -/
structure KMeansParams where
  centroids : List (List ℚ)
deriving Repr, DecidableEq, Inhabited

/-- Feature vector of one rfm row, in the column order of the frame:
recency, frequency, monetary. -/
def featVec (r : RFMRecord) : List ℚ :=
  [(r.recency : ℚ), (r.frequency : ℚ), r.monetary]

/-- StandardScaler.transform of one row with the STORED parameters (the code
calls transform, never fit, at apply time): componentwise (x - mean) / scale. -/
def transformRow (s : ScalerParams) (x : List ℚ) : List ℚ :=
  (List.zip x (List.zip s.mean s.scale)).map
    (fun p => (p.1 - p.2.1) / p.2.2)

/-- Squared Euclidean distance (the square root is monotone, so KMeans
nearest-centroid search compares the squares). -/
def sqDist (a b : List ℚ) : ℚ :=
  ((List.zip a b).map (fun p => (p.1 - p.2) * (p.1 - p.2))).sum

/-- Index of the first minimum of a list, the numpy argmin tie rule used by
KMeans.predict: on equal distances the lower index wins. -/
def argminFirst : List ℚ → ℕ
  | [] => 0
  | [_] => 0
  | a :: b :: rest =>
      if a ≤ (b :: rest).getD (argminFirst (b :: rest)) 0 then 0
      else argminFirst (b :: rest) + 1

theorem argminFirst_lt_length (l : List ℚ) (hl : l ≠ []) :
    argminFirst l < l.length := by
  induction l with
  | nil => exact absurd rfl hl
  | cons a t ih =>
      cases t with
      | nil => simp [argminFirst]
      | cons b rest =>
          rw [argminFirst]
          split
          · simp
          · have := ih (by simp)
            simpa using Nat.succ_lt_succ this

theorem argminFirst_le (l : List ℚ) :
    ∀ i, i < l.length → l.getD (argminFirst l) 0 ≤ l.getD i 0 := by
  induction l with
  | nil => intro i h; simp at h
  | cons a t ih =>
      cases t with
      | nil =>
          intro i h
          have hi : i = 0 := by simpa using Nat.lt_one_iff.mp (by simpa using h)
          subst hi
          simp [argminFirst]
      | cons b rest =>
          intro i h
          rw [argminFirst]
          split
          · rename_i hle
            cases i with
            | zero => simp
            | succ i' =>
                rw [List.getD_cons_zero, List.getD_cons_succ]
                exact le_trans hle (ih i' (by simpa using Nat.succ_lt_succ_iff.mp h))
          · rename_i hgt
            cases i with
            | zero =>
                rw [List.getD_cons_succ, List.getD_cons_zero]
                exact le_of_lt (lt_of_not_le hgt)
            | succ i' =>
                rw [List.getD_cons_succ, List.getD_cons_succ]
                exact ih i' (by simpa using Nat.succ_lt_succ_iff.mp h)

/-- KMeans.predict of one standardized point: index of the centroid at
minimal Euclidean distance, first index on ties. -/
def nearestIdx (k : KMeansParams) (x : List ℚ) : ℕ :=
  argminFirst (k.centroids.map (fun c => sqDist c x))

theorem nearestIdx_lt (k : KMeansParams) (x : List ℚ)
    (h : k.centroids ≠ []) : nearestIdx k x < k.centroids.length := by
  have := argminFirst_lt_length (k.centroids.map (fun c => sqDist c x))
    (by simpa using h)
  simpa [nearestIdx] using this

theorem nearestIdx_le (k : KMeansParams) (x : List ℚ) (j : ℕ)
    (hj : j < k.centroids.length) :
    sqDist (k.centroids.getD (nearestIdx k x) []) x ≤
      sqDist (k.centroids.getD j []) x := by
  have hne : k.centroids ≠ [] := by
    intro hnil; rw [hnil] at hj; simp at hj
  have hn : nearestIdx k x < k.centroids.length := nearestIdx_lt k x hne
  have key := argminFirst_le (k.centroids.map (fun c => sqDist c x))
    j (by simpa using hj)
  have hd : ∀ m (hm : m < k.centroids.length),
      (k.centroids.map (fun c => sqDist c x)).getD m 0 =
        sqDist (k.centroids.getD m []) x := by
    intro m hm
    rw [List.getD_eq_getElem _ _ (by simpa using hm),
      List.getD_eq_getElem _ _ hm, List.getElem_map]
  rw [hd j hj] at key
  rw [hd (argminFirst (k.centroids.map (fun c => sqDist c x))) hn] at key
  exact key

/-- Failure modes of apply_customer_segmentation, named after what the
Python code actually raises: the explicit FileNotFoundError of load_model
when the artifact file is absent (the spec taxonomy's model-not-found
error), and the ValueError of the sklearn validation layer on a 0-sample
input or a feature-count mismatch with the fitted artifact (the spec
taxonomy's model-mismatch error). -/
inductive SegError where
  | fileNotFound
  | zeroSamples
  | featureMismatch
deriving Repr, DecidableEq

/-- Feature count the stored scaler was fitted on. -/
def scalerDim (s : ScalerParams) : ℕ := s.mean.length

/-- Feature count of the stored centroid matrix. -/
def kmeansDim (k : KMeansParams) : ℕ := (k.centroids.headD []).length

/-- The rfm[cluster] = kmeans.predict(rfm_normalized) column assignment. -/
def assignClusters (s : ScalerParams) (k : KMeansParams)
    (rfm : List RFMRecord) : List RFMRecord :=
  rfm.map (fun r => { r with cluster := nearestIdx k (transformRow s (featVec r)) })

/-- apply_customer_segmentation: load the two artifacts (a missing file is
the FileNotFoundError raise of load_model, modelled by the none cases),
aggregate the RFM frame, standardize it with the stored scaler (sklearn
rejects a 0-sample frame, and a feature count differing from the fitted
scaler), then predict clusters with the stored centroids (sklearn rejects a
feature count differing from the centroid width).  The RFM frame always has
3 features, so the mismatch checks compare the artifacts against 3. -/
def apply_customer_segmentation (scalerArtifact : Option ScalerParams)
    (kmeansArtifact : Option KMeansParams) (df : List TransactionEvent) :
    Except SegError (List RFMRecord) :=
  match scalerArtifact with
  | none => .error .fileNotFound
  | some s =>
    match kmeansArtifact with
    | none => .error .fileNotFound
    | some k =>
      let rfm := buildRFM df
      if rfm.isEmpty then .error .zeroSamples
      else if scalerDim s ≠ 3 then .error .featureMismatch
      else if kmeansDim k ≠ 3 then .error .featureMismatch
      else .ok (assignClusters s k rfm)

theorem buildRFM_ne_nil (df : List TransactionEvent) (h : df ≠ []) :
    (buildRFM df).isEmpty = false := by
  rw [buildRFM, customersOf]
  cases df with
  | nil => exact absurd rfl h
  | cons t l =>
      have : (((t :: l).map (fun t => t.customer_id)).dedup) ≠ [] := by
        rw [ne_eq, List.dedup_eq_nil]
        simp
      cases hd : ((t :: l).map (fun t => t.customer_id)).dedup with
      | nil => exact absurd hd this
      | cons c cs => simp

/-- C7: predict is deterministic and nearest-centroid.  The embedding of
apply_customer_segmentation is a pure function of the stored artifact and
the input (the code draws no randomness at apply time and standardizes with
the stored scaler, never re-fitting), so a second call with the same
arguments returns the same assignments; and every returned cluster index
points to a centroid whose squared Euclidean distance to the standardized
feature vector is minimal among all centroids. -/
theorem C7_predict_deterministic_nearest (s : ScalerParams) (k : KMeansParams)
    (df : List TransactionEvent) (out : List RFMRecord)
    (h : apply_customer_segmentation (some s) (some k) df = .ok out) :
    apply_customer_segmentation (some s) (some k) df = .ok out ∧
    ∀ r ∈ out, ∀ j, j < k.centroids.length →
      sqDist (k.centroids.getD r.cluster []) (transformRow s (featVec r)) ≤
        sqDist (k.centroids.getD j []) (transformRow s (featVec r)) := by
  refine ⟨h, ?_⟩
  simp only [apply_customer_segmentation] at h
  split_ifs at h with h1 h2 h3 <;>
  first
    | exact Except.noConfusion h
    | · simp only [Except.ok.injEq] at h
        subst h
        intro r hr j hj
        rw [assignClusters, List.mem_map] at hr
        obtain ⟨r0, hr0, rfl⟩ := hr
        exact nearestIdx_le k (transformRow s (featVec r0)) j hj

/-! Concrete artifacts for the model-level witnesses: a 3-feature scaler
and centroid matrix, and deliberately 1-feature variants. -/

def s0 : ScalerParams := { mean := [0, 0, 0], scale := [1, 1, 1] }

def k0 : KMeansParams := { centroids := [[0, 0, 0], [100, 100, 100]] }

def sBad : ScalerParams := { mean := [0], scale := [1] }

def kBad : KMeansParams := { centroids := [[0]] }

theorem c7_apply_eq :
    apply_customer_segmentation (some s0) (some k0) c2table =
      .ok (assignClusters s0 k0 (buildRFM c2table)) := by
  have e1 : (buildRFM c2table).isEmpty = false := by decide
  simp [apply_customer_segmentation, e1, scalerDim, kmeansDim, s0, k0]

/-- Witness for C7 on the two-customer table and the concrete artifact. -/
theorem C7_witness :
    apply_customer_segmentation (some s0) (some k0) c2table =
        Except.ok (assignClusters s0 k0 (buildRFM c2table)) ∧
      ∀ r ∈ assignClusters s0 k0 (buildRFM c2table), ∀ j, j < k0.centroids.length →
        sqDist (k0.centroids.getD r.cluster []) (transformRow s0 (featVec r)) ≤
          sqDist (k0.centroids.getD j []) (transformRow s0 (featVec r)) :=
  C7_predict_deterministic_nearest s0 k0 c2table _ c7_apply_eq

/-- C8: predict against an absent artifact fails with the load error (the
FileNotFoundError of load_model, the model-not-found condition), and predict
with a stored scaler or centroid matrix whose feature count differs from the
3 RFM features fails with the sklearn mismatch error; in each case the call
returns an error and never a list of assignments. -/
theorem C8_artifact_errors :
    (∀ (k : Option KMeansParams) (df : List TransactionEvent),
        apply_customer_segmentation none k df = .error .fileNotFound) ∧
    (∀ (s : ScalerParams) (df : List TransactionEvent),
        apply_customer_segmentation (some s) none df = .error .fileNotFound) ∧
    (∀ (s : ScalerParams) (k : KMeansParams) (df : List TransactionEvent),
        df ≠ [] → scalerDim s ≠ 3 →
          apply_customer_segmentation (some s) (some k) df = .error .featureMismatch) ∧
    (∀ (s : ScalerParams) (k : KMeansParams) (df : List TransactionEvent),
        df ≠ [] → scalerDim s = 3 → kmeansDim k ≠ 3 →
          apply_customer_segmentation (some s) (some k) df = .error .featureMismatch) := by
  refine ⟨fun k df => rfl, fun s df => rfl, ?_, ?_⟩
  · intro s k df hdf hs
    simp [apply_customer_segmentation, buildRFM_ne_nil df hdf, hs]
  · intro s k df hdf hs hk
    simp [apply_customer_segmentation, buildRFM_ne_nil df hdf, hs, hk]

/-- Witness for C8 at the concrete artifacts and table. -/
theorem C8_witness :
    apply_customer_segmentation none (some k0) c2table = .error .fileNotFound ∧
    apply_customer_segmentation (some s0) none c2table = .error .fileNotFound ∧
    apply_customer_segmentation (some sBad) (some k0) c2table = .error .featureMismatch ∧
    apply_customer_segmentation (some s0) (some kBad) c2table = .error .featureMismatch :=
  ⟨C8_artifact_errors.1 (some k0) c2table,
   C8_artifact_errors.2.1 s0 c2table,
   C8_artifact_errors.2.2.1 sBad k0 c2table (by decide) (by decide),
   C8_artifact_errors.2.2.2 s0 kBad c2table (by decide) (by decide) (by decide)⟩

/-- C9 counterexample: on the empty transaction table the pipeline does NOT
return an empty feature set: the groupby produces zero RFM rows, and
scaler.transform then rejects the 0-sample array (the sklearn minimum-sample
validation), so the call raises instead of returning zero assignments. -/
theorem C9_counterexample :
    apply_customer_segmentation (some s0) (some k0) [] =
      .error .zeroSamples := rfl

/-- C9 (amended): on the empty transaction table the RFM aggregation itself
yields the empty feature set without error, but apply_customer_segmentation
then fails inside scaler.transform on the 0-sample array, for every stored
artifact pair, rather than returning an empty assignment list. -/
theorem C9_amended (s : ScalerParams) (k : KMeansParams) :
    buildRFM ([] : List TransactionEvent) = [] ∧
    apply_customer_segmentation (some s) (some k) [] =
      .error .zeroSamples :=
  ⟨rfl, rfl⟩

/-! ## Lifetime value
(utils/data_processor.py, analyze_customer_lifetime_value) -/

/-- Row of the transaction table joined with demographics, the columns the
CLV aggregation reads. -/
structure CLVInputRow where
  customer_id : String
  amount : ℚ
  age : ℚ
deriving Repr, DecidableEq, Inhabited

/-- Result of a float division as numpy and pandas produce it: finite
quotient when the divisor is nonzero, signed infinity for a nonzero dividend
over zero, NaN for zero over zero. -/
inductive PyVal where
  | fin (q : ℚ)
  | posInf
  | negInf
  | nan
deriving Repr, DecidableEq

/-- Float division with the numpy zero-divisor behaviour. -/
def pyDiv (a b : ℚ) : PyVal :=
  if b ≠ 0 then .fin (a / b)
  else if 0 < a then .posInf
  else if a < 0 then .negInf
  else .nan

/-- One output row of the CLV frame. -/
structure CLVRecord where
  customer_id : String
  total_spend : ℚ
  customer_age : ℚ
  annual_value : PyVal
deriving Repr, DecidableEq

/-- Group keys of the CLV groupby customer_id. -/
def clvCustomers (df : List CLVInputRow) : List String :=
  (df.map (fun t => t.customer_id)).dedup

/-- Rows of one customer group. -/
def clvRows (df : List CLVInputRow) (cid : String) : List CLVInputRow :=
  df.filter (fun t => t.customer_id == cid)

/-- One aggregated CLV row: amount sum, mean age, and the bare quotient
total_spend / customer_age of the column assignment, with no validation
of the age. -/
def clvRow (df : List CLVInputRow) (cid : String) : CLVRecord :=
  { customer_id := cid
    total_spend := ((clvRows df cid).map (fun t => t.amount)).sum
    customer_age :=
      ((clvRows df cid).map (fun t => t.age)).sum / ((clvRows df cid).length : ℚ)
    annual_value :=
      pyDiv (((clvRows df cid).map (fun t => t.amount)).sum)
        (((clvRows df cid).map (fun t => t.age)).sum / ((clvRows df cid).length : ℚ)) }

/-- analyze_customer_lifetime_value: groupby customer_id, agg amount sum and
age mean, then annual_value = total_spend / customer_age. -/
def analyze_customer_lifetime_value (df : List CLVInputRow) : List CLVRecord :=
  (clvCustomers df).map (clvRow df)

/-- Single customer with positive spend and age 0 for the C3 refutation. -/
def clv0table : List CLVInputRow :=
  [{ customer_id := "custC", amount := 10, age := 0 }]

/-- C3 counterexample: a customer with total spend 10 and age 0 is NOT
excluded from the CLV output and no error is raised: the row comes back
with annual_value = +inf (numpy division of a positive float by zero),
contradicting the claimed InvalidAgeError and exclusion.  No error class
named InvalidAgeError exists anywhere in the repository. -/
theorem C3_counterexample :
    (analyze_customer_lifetime_value clv0table).map
        (fun r => (r.customer_id, r.annual_value)) =
      [("custC", PyVal.posInf)] := by
  norm_num [analyze_customer_lifetime_value, clvCustomers, clvRow, clvRows,
    clv0table, pyDiv]

/-- C3 (amended): analyze_customer_lifetime_value performs no age check and
raises nothing: every customer of the input appears in the output, each
output row carries annual_value = total_spend / customer_age computed with
float semantics (finite quotient when the mean age is nonzero; +inf, -inf
or NaN when it is zero), and age-zero customers are included rather than
excluded. -/
theorem C3_amended (df : List CLVInputRow) :
    (∀ cid ∈ df.map (fun t => t.customer_id),
        ∃ r ∈ analyze_customer_lifetime_value df, r.customer_id = cid) ∧
    (∀ r ∈ analyze_customer_lifetime_value df,
        r.annual_value = pyDiv r.total_spend r.customer_age ∧
        (r.customer_age ≠ 0 →
          r.annual_value = PyVal.fin (r.total_spend / r.customer_age))) := by
  constructor
  · intro cid hcid
    refine ⟨clvRow df cid, ?_, rfl⟩
    exact List.mem_map_of_mem _ (by rw [clvCustomers, List.mem_dedup]; exact hcid)
  · intro r hr
    rw [analyze_customer_lifetime_value, List.mem_map] at hr
    obtain ⟨cid, hcid, rfl⟩ := hr
    refine ⟨rfl, ?_⟩
    intro hne
    have h1 : (clvRow df cid).annual_value =
        pyDiv (clvRow df cid).total_spend (clvRow df cid).customer_age := rfl
    rw [h1, pyDiv, if_pos hne]

/-- Witness for C3_amended: the age-zero customer of clv0table is present in
the output. -/
theorem C3_witness :
    ∃ r ∈ analyze_customer_lifetime_value clv0table, r.customer_id = "custC" :=
  (C3_amended clv0table).1 "custC" (by decide)

/-! ## Demand forecast (utils/data_processor.py, generate_forecast) -/

/-- Failure mode of generate_forecast itself: indexing index[-1] of an
empty series.  The statsmodels fit is external library code abstracted
below; the repository function raises nothing else — in particular it
defines and raises no insufficient-history error of any kind. -/
inductive ForecastError where
  | indexError
deriving Repr, DecidableEq

/-- The forecast index pd.date_range(start = last historical date + 1 day,
periods = steps, freq daily), with dates as whole days. -/
def forecastDates (start : ℤ) (steps : ℕ) : List ℤ :=
  (List.range steps).map (fun i : ℕ => start + 1 + (i : ℤ))

/-- generate_forecast: the ARIMA(1,1,1) fit and the statsmodels call
results.get_forecast(steps).predicted_mean are external library code,
abstracted into the predictedMean parameter.  The repository function
itself reads the last historical index entry (an IndexError on an empty
series), builds the forward date range, and pairs it with the predicted
mean series; the historical frame is returned unchanged. -/
def generate_forecast (predictedMean : List (ℤ × ℚ) → ℕ → List ℚ)
    (daily : List (ℤ × ℚ)) (steps : ℕ) :
    Except ForecastError (List (ℤ × ℚ) × List (ℤ × ℚ)) :=
  match daily.getLast? with
  | none => .error .indexError
  | some lastPoint =>
      .ok ((forecastDates lastPoint.1 steps).zip (predictedMean daily steps), daily)

theorem forecastDates_length (start : ℤ) (steps : ℕ) :
    (forecastDates start steps).length = steps := by
  simp [forecastDates]

theorem forecastDates_getD (start : ℤ) (steps i : ℕ) (h : i < steps) :
    (forecastDates start steps).getD i 0 = start + 1 + (i : ℤ) := by
  rw [forecastDates,
    List.getD_eq_getElem _ _ (by simpa using h),
    List.getElem_map, List.getElem_range]

/-- C4: when the predicted-mean series has one value per requested step (as
statsmodels get_forecast(steps) produces), the forecast part of the output
has exactly steps points, its dates are precisely the steps consecutive
calendar days immediately following the last historical date, and each
successive date is one day after the previous one. -/
theorem C4_forecast_dates (p : List (ℤ × ℚ) → ℕ → List ℚ)
    (daily : List (ℤ × ℚ)) (steps : ℕ) (out : List (ℤ × ℚ) × List (ℤ × ℚ))
    (hp : (p daily steps).length = steps)
    (h : generate_forecast p daily steps = .ok out) :
    out.1.length = steps ∧
    out.1.map Prod.fst = forecastDates ((daily.getLast?.getD (0, 0)).1) steps ∧
    ∀ i, i + 1 < steps →
      (out.1.map Prod.fst).getD (i + 1) 0 = (out.1.map Prod.fst).getD i 0 + 1 := by
  cases hlast : daily.getLast? with
  | none =>
      rw [generate_forecast, hlast] at h
      exact Except.noConfusion h
  | some lastPoint =>
      rw [generate_forecast, hlast] at h
      simp only [Except.ok.injEq] at h
      subst h
      have hidx : ((forecastDates lastPoint.1 steps).zip (p daily steps)).map Prod.fst =
          forecastDates lastPoint.1 steps :=
        List.map_fst_zip _ _ (by rw [forecastDates_length, hp])
      refine ⟨?_, ?_, ?_⟩
      · simp [List.length_zip, forecastDates_length, hp]
      · rw [hidx]
        rfl
      · intro i hi
        rw [hidx, forecastDates_getD _ _ _ hi,
          forecastDates_getD _ _ _ (by omega)]
        push_cast
        ring

/-- Predicted-mean stub standing for one concrete statsmodels output. -/
def constPredictedMean (_daily : List (ℤ × ℚ)) (steps : ℕ) : List ℚ :=
  List.replicate steps 0

/-- One-point historical series: far below the observations needed to
estimate an ARIMA(1,1,1) model. -/
def dailySeriesEx : List (ℤ × ℚ) := [(0, 5)]

/-- The forecast frame that generate_forecast returns on dailySeriesEx. -/
def forecastOutEx : List (ℤ × ℚ) × List (ℤ × ℚ) :=
  ([(1, 0), (2, 0), (3, 0)], dailySeriesEx)

/-- Witness for C4_forecast_dates at the concrete one-point series. -/
theorem C4_witness :
    (constPredictedMean dailySeriesEx 3).length = 3 ∧
      (forecastOutEx.1.length = 3 ∧
        forecastOutEx.1.map Prod.fst =
          forecastDates ((dailySeriesEx.getLast?.getD (0, 0)).1) 3 ∧
        ∀ i, i + 1 < 3 →
          (forecastOutEx.1.map Prod.fst).getD (i + 1) 0 =
            (forecastOutEx.1.map Prod.fst).getD i 0 + 1) :=
  ⟨by decide,
    C4_forecast_dates constPredictedMean dailySeriesEx 3 forecastOutEx
      (by decide) (by rfl)⟩

/-- C5 counterexample: a one-point historical series — too short to
estimate the configured ARIMA(1,1,1) order by any account — still yields a
forecast: the call returns ok, it does not fail.  The repository defines no
InsufficientHistoryError and generate_forecast contains no length check at
all; accordingly the error type of the embedding, read off the source, has
no such failure mode that could even be returned. -/
theorem C5_counterexample :
    generate_forecast constPredictedMean dailySeriesEx 3 =
      .ok forecastOutEx := rfl

/-- C5 (amended): generate_forecast rejects nothing except the empty series
(whose last-index access fails): for every nonempty historical series, of
any length however small, and every horizon, the call returns a forecast
rather than an insufficient-history failure. -/
theorem C5_amended (p : List (ℤ × ℚ) → ℕ → List ℚ)
    (daily : List (ℤ × ℚ)) (steps : ℕ) (h : daily ≠ []) :
    ∃ res, generate_forecast p daily steps = .ok res := by
  have hsome : daily.getLast?.isSome := by
    rw [List.getLast?_isSome]
    exact h
  obtain ⟨lastPoint, hlp⟩ := Option.isSome_iff_exists.mp hsome
  exact ⟨((forecastDates lastPoint.1 steps).zip (p daily steps), daily),
    by rw [generate_forecast, hlp]⟩

/-- Witness for C5_amended at the one-point series. -/
theorem C5_witness :
    ∃ res, generate_forecast constPredictedMean dailySeriesEx 5 = .ok res :=
  C5_amended constPredictedMean dailySeriesEx 5 (by decide)

/-! ## Channel explosion (utils/data_processor.py, preprocess_channels and
get_channel_success_rate) -/

/-- DataFrame.explode on the channels column, for one row: one output row
per channel of the row's list; an empty list yields a single row with a
null channel, the pandas explode convention.  The pair keeps the full
original row next to the exploded channel value. -/
def explodeRowPairs (r : OfferEvent) : List (OfferEvent × Option String) :=
  if r.channels.isEmpty then [(r, none)]
  else r.channels.map (fun c => (r, some c))

/-- preprocess_channels: parse the serialized channel lists (the eval step,
already reflected in the channels field) and explode the frame on them. -/
def preprocess_channels (df : List OfferEvent) : List (OfferEvent × Option String) :=
  df.flatMap explodeRowPairs

/-- Non-null channel keys of the exploded frame (pandas groupby drops null
keys). -/
def channelKeys (ex : List (OfferEvent × Option String)) : List String :=
  (ex.filterMap (fun p => p.2)).dedup

/-- get_channel_success_rate: explode, group by channel, take the mean of
the boolean offer_success column per group. -/
def get_channel_success_rate (df : List OfferEvent) : List (String × ℚ) :=
  (channelKeys (preprocess_channels df)).map (fun c =>
    (c, (((preprocess_channels df).filter (fun p => p.2 == some c)).map
          (fun p => if p.1.offer_success then (1 : ℚ) else 0)).sum /
        (((preprocess_channels df).filter (fun p => p.2 == some c)).length : ℚ)))

theorem sublist_flatMap_of_mem {α β : Type} (f : α → List β) (l : List α)
    (a : α) (h : a ∈ l) : (f a).Sublist (l.flatMap f) := by
  induction l with
  | nil => simp at h
  | cons b t ih =>
      rcases List.mem_cons.mp h with rfl | h2
      · rw [List.flatMap_cons]
        exact List.sublist_append_left _ _
      · rw [List.flatMap_cons]
        exact (ih h2).trans (List.sublist_append_right _ _)

/-- C6: channel aggregation is a one-to-many expansion, never a fractional
split: a row with a nonempty channel list contributes exactly one exploded
row per channel (so exactly channels.length rows, e.g. exactly 2 for
channels email and mobile), its contribution appears contiguously inside
the exploded table, within the contribution each channel value c receives
exactly as many rows as c occurs in the list (once for a set-like list),
and every contributed row carries the row's own offer_success flag, so the
flag is counted once against each of the row's channels by the per-channel
mean. -/
theorem C6_channel_explosion (df : List OfferEvent) (r : OfferEvent)
    (hr : r ∈ df) (hne : r.channels ≠ []) :
    (explodeRowPairs r).length = r.channels.length ∧
    (∀ c : String,
        ((explodeRowPairs r).filter (fun p => p.2 == some c)).length =
          r.channels.count c) ∧
    (∀ p ∈ explodeRowPairs r, p.1.offer_success = r.offer_success) ∧
    (explodeRowPairs r).Sublist (preprocess_channels df) := by
  have hemp : r.channels.isEmpty = false := by
    cases hc : r.channels with
    | nil => exact absurd hc hne
    | cons a t => rfl
  have hexp : explodeRowPairs r = r.channels.map (fun c => (r, some c)) := by
    rw [explodeRowPairs, hemp]
    rfl
  refine ⟨?_, ?_, ?_, ?_⟩
  · rw [hexp, List.length_map]
  · intro c
    rw [hexp, List.filter_map, List.length_map, List.count_eq_countP,
      List.countP_eq_length_filter]
    congr 1
  · intro p hp
    rw [hexp, List.mem_map] at hp
    obtain ⟨c, hc, rfl⟩ := hp
    rfl
  · exact sublist_flatMap_of_mem explodeRowPairs df r hr

/-- Offer row with the two channels of the spec's example scenario. -/
def c6row : OfferEvent :=
  { c1row1 with
    offer_id := "off6"
    channels := ["email", "mobile"]
    offer_success := true }

def c6table : List OfferEvent := [c1row1, c6row]

/-- Witness for C6_channel_explosion: the email-and-mobile row of c6table
contributes exactly 2 exploded rows, one per channel, both carrying its
success flag. -/
theorem C6_witness :
    (explodeRowPairs c6row).length = c6row.channels.length ∧
    (∀ c : String,
        ((explodeRowPairs c6row).filter (fun p => p.2 == some c)).length =
          c6row.channels.count c) ∧
    (∀ p ∈ explodeRowPairs c6row, p.1.offer_success = c6row.offer_success) ∧
    (explodeRowPairs c6row).Sublist (preprocess_channels c6table) :=
  C6_channel_explosion c6table c6row (by decide) (by decide)
